import Mathlib

/-!
Verification of the S3 backend (`src/services/s3/backend.rs`).

Strings are modelled as `List Char` (`Str` below); Rust string literals are
written as Lean string literals followed by `.data`.  Machine integers
(`usize`/`u64`) are modelled as `Nat` with explicit `% 2 ^ 64` where Rust
wrapping semantics matter.  Code paths that panic in Rust (`unreachable!`,
`expect`) are modelled by `Option`, with `none` standing for the panic.
-/

namespace OpendalS3

/-- Strings as lists of characters. -/
abbrev Str := List Char

/-! ## Path model -/

/-- Embedding of Rust `str::split('/')`: `"".split('/') = [""]`,
`"a/b".split('/') = ["a", "b"]`, `"/".split('/') = ["", ""]`. -/
def splitSlash : Str → List Str
  | [] => [[]]
  | c :: cs =>
    if c = '/' then [] :: splitSlash cs
    else (splitSlash cs).modifyHead (fun s => c :: s)

/-- Embedding of Rust `Vec::join("/")` on the segment list. -/
def joinSlash : List Str → Str
  | [] => []
  | [s] => s
  | s :: t :: rest => s ++ '/' :: joinSlash (t :: rest)

/-- `Backend::normalize_path`: split on `'/'`, drop empty segments, rejoin
with `'/'`, and restore a single trailing slash when the input had one and
the rejoined string is not `"/"` (mirroring `has_trailing && !p.eq("/")`). -/
def normalize_path (p : Str) : Str :=
  let segs := (splitSlash p).filter (fun s => !s.isEmpty)
  let joined := joinSlash segs
  if p.getLast? = some '/' ∧ joined ≠ ['/'] then joined ++ ['/'] else joined

/-- The immutable backend configuration (`struct Backend`).  The signer and
the hyper client are external collaborators and are not part of the state
modelled here. -/
structure Backend where
  bucket : Str
  endpoint : Str
  root : Str
  server_side_encryption : Option Str
  server_side_encryption_aws_kms_key_id : Option Str
  server_side_encryption_customer_algorithm : Option Str
  server_side_encryption_customer_key : Option Str
  server_side_encryption_customer_key_md5 : Option Str
  deriving DecidableEq

/-- `Backend::get_abs_path`: `format!("{}{}", root, normalize_path(path))`
with all leading `'/'` trimmed (`trim_start_matches('/')`). -/
def get_abs_path (b : Backend) (path : Str) : Str :=
  (b.root ++ normalize_path path).dropWhile (fun c => c == '/')

/-- `Backend::get_rel_path`: prepend `'/'` to the normalized path and strip
the root prefix.  The Rust code hits `unreachable!` when the prefix does not
match; that panic is modelled by `none`. -/
def get_rel_path (b : Backend) (path : Str) : Option Str :=
  let path := normalize_path path
  let path := '/' :: path
  if b.root.isPrefixOf path then some (path.drop b.root.length) else none

/-! ## Configuration builder -/

/-- `enum Credential` (from `crate::credential`).  Modelled from the spec:
either an explicit HMAC key pair or "read from process environment". -/
inductive Credential
  | hmac (access_key_id secret_access_key : Str)
  | plain
  deriving DecidableEq

/-- `struct Builder`: the mutable configuration consumed by `finish`. -/
structure Builder where
  root : Option Str
  bucket : Str
  credential : Option Credential
  endpoint : Option Str
  region : Option Str
  server_side_encryption : Option Str
  server_side_encryption_aws_kms_key_id : Option Str
  server_side_encryption_customer_algorithm : Option Str
  server_side_encryption_customer_key : Option Str
  server_side_encryption_customer_key_md5 : Option Str
  deriving DecidableEq

/-- `Builder::default()`: all fields unset, `bucket` empty. -/
def Builder.default : Builder :=
  ⟨none, [], none, none, none, none, none, none, none, none⟩

/-- `Builder::root`: the empty string stores `None`. -/
def Builder.set_root (b : Builder) (v : Str) : Builder :=
  { b with root := if v = [] then none else some v }

/-- `Builder::bucket`. -/
def Builder.set_bucket (b : Builder) (v : Str) : Builder :=
  { b with bucket := v }

/-- `Builder::endpoint`: the empty string stores `None`. -/
def Builder.set_endpoint (b : Builder) (v : Str) : Builder :=
  { b with endpoint := if v = [] then none else some v }

/-- `Builder::region`: the empty string stores `None`. -/
def Builder.set_region (b : Builder) (v : Str) : Builder :=
  { b with region := if v = [] then none else some v }

/-- `Builder::server_side_encryption`: the empty string stores `None`. -/
def Builder.set_server_side_encryption (b : Builder) (v : Str) : Builder :=
  { b with server_side_encryption := if v = [] then none else some v }

/-- `Builder::server_side_encryption_aws_kms_key_id`: the empty string
stores `None`. -/
def Builder.set_server_side_encryption_aws_kms_key_id (b : Builder) (v : Str) : Builder :=
  { b with server_side_encryption_aws_kms_key_id := if v = [] then none else some v }

/-- `Builder::server_side_encryption_customer_algorithm`: the empty string
stores `None`. -/
def Builder.set_server_side_encryption_customer_algorithm (b : Builder) (v : Str) : Builder :=
  { b with server_side_encryption_customer_algorithm := if v = [] then none else some v }

/-- `Builder::server_side_encryption_customer_key`: the empty string stores
`None`. -/
def Builder.set_server_side_encryption_customer_key (b : Builder) (v : Str) : Builder :=
  { b with server_side_encryption_customer_key := if v = [] then none else some v }

/-- `Builder::server_side_encryption_customer_key_md5`: the empty string
stores `None`. -/
def Builder.set_server_side_encryption_customer_key_md5 (b : Builder) (v : Str) : Builder :=
  { b with server_side_encryption_customer_key_md5 := if v = [] then none else some v }

/-- The root normalization performed by `Builder::finish`: `None` becomes
`"/"`; otherwise the stored value is passed through `normalize_path`, a
leading `'/'` is inserted when missing, and a trailing `'/'` is pushed
when missing. -/
def finish_root : Option Str → Str
  | none => ['/']
  | some v =>
    let v₁ := normalize_path v
    let v₂ := if v₁.head? = some '/' then v₁ else '/' :: v₁
    if v₂.getLast? = some '/' then v₂ else v₂ ++ ['/']

/-! ## Endpoint resolver (`Builder::detect_region`) -/

/-- The `ENDPOINT_TEMPLATES` table: the single entry maps the AWS global
endpoint to its regional template. -/
def ENDPOINT_TEMPLATES (e : Str) : Option Str :=
  if e = ("https://s3.amazonaws.com").data
  then some ("https://s3.{region}.amazonaws.com").data
  else none

/-- One step of Rust `str::replace`, structurally recursive on explicit
fuel; `replace_all` supplies `s.length` fuel, enough to consume the whole
string since every step consumes at least one character (the replaced
pattern here, `"{region}"`, is never empty). -/
def replace_go (pat rep : Str) : Nat → Str → Str
  | _, [] => []
  | 0, s => s
  | fuel + 1, c :: cs =>
    if pat ≠ [] ∧ pat.isPrefixOf (c :: cs) then
      rep ++ replace_go pat rep fuel ((c :: cs).drop pat.length)
    else
      c :: replace_go pat rep fuel cs

/-- Rust `s.replace(pat, rep)` (non-overlapping, left to right). -/
def replace_all (s pat rep : Str) : Str :=
  replace_go pat rep s.length s

/-- The response to the HEAD probe issued by `detect_region`: status code
and the `x-amz-bucket-region` header.   Header values are modelled as
already-valid strings (`HeaderValue::to_str` failures on non-ASCII values
are a transport-level corner not modelled here). -/
structure ProbeResponse where
  status : Nat
  x_amz_bucket_region : Option Str
  deriving DecidableEq

/-- Outcome of `detect_region`: a resolved `(endpoint, region)` pair or a
`Kind::BackendConfigurationInvalid` error. -/
inductive DetectResult
  | ok (endpoint region : Str)
  | configError
  deriving DecidableEq

/-- `Builder::detect_region`.  The HTTP exchange is modelled by `probe`,
a function from the request URI to an optional response (`none` models a
transport failure, which the code maps to a configuration error). -/
def detect_region (endpointOpt regionOpt : Option Str) (bucket : Str)
    (probe : Str → Option ProbeResponse) : DetectResult :=
  let endpoint := endpointOpt.getD ("https://s3.amazonaws.com").data
  match regionOpt with
  | some region =>
    match ENDPOINT_TEMPLATES endpoint with
    | some template => .ok (replace_all template ("{region}").data region) region
    | none => .ok endpoint region
  | none =>
    match probe (endpoint ++ '/' :: bucket) with
    | none => .configError
    | some res =>
      if res.status = 200 ∨ res.status = 403 then
        .ok endpoint (res.x_amz_bucket_region.getD ("us-east-1").data)
      else if res.status = 301 then
        match res.x_amz_bucket_region with
        | none => .configError
        | some region =>
          match ENDPOINT_TEMPLATES endpoint with
          | none => .configError
          | some template => .ok (replace_all template ("{region}").data region) region
      else .configError

/-! ## Header policy and request builders -/

/-- `constants::X_AMZ_SERVER_SIDE_ENCRYPTION`. -/
def xamzSse : Str := ("x-amz-server-side-encryption").data

/-- `constants::X_AMZ_SERVER_SIDE_ENCRYPTION_AWS_KMS_KEY_ID`. -/
def xamzSseKmsKeyId : Str := ("x-amz-server-side-encryption-aws-kms-key-id").data

/-- `constants::X_AMZ_SERVER_SIDE_ENCRYPTION_CUSTOMER_ALGORITHM`. -/
def xamzSseCustomerAlgorithm : Str :=
  ("x-amz-server-side-encryption-customer-algorithm").data

/-- `constants::X_AMZ_SERVER_SIDE_ENCRYPTION_CUSTOMER_KEY`. -/
def xamzSseCustomerKey : Str := ("x-amz-server-side-encryption-customer-key").data

/-- `constants::X_AMZ_SERVER_SIDE_ENCRYPTION_CUSTOMER_KEY_MD5`. -/
def xamzSseCustomerKeyMd5 : Str :=
  ("x-amz-server-side-encryption-customer-key-md5").data

/-- An HTTP request under construction (`http::request::Builder`): method,
URI and the header list in insertion order.  `set_sensitive` is
log-redaction metadata and carries no wire semantics, so it is not
modelled; `HeaderValue` parsing (`expect("must be valid header value")`)
is modelled as always succeeding since values are already strings here. -/
structure HttpRequestBuilder where
  method : Str
  uri : Str
  headers : List (Str × Str)
  deriving DecidableEq

/-- The headers appended by `Backend::insert_sse_headers`, in the order the
code appends them: on write only, `x-amz-server-side-encryption` then the
KMS key id; on every call, the three customer-key headers. -/
def sse_headers_for (b : Backend) (is_write : Bool) : List (Str × Str) :=
  (if is_write then
    (match b.server_side_encryption with
     | some v => [(xamzSse, v)]
     | none => [])
    ++ (match b.server_side_encryption_aws_kms_key_id with
        | some v => [(xamzSseKmsKeyId, v)]
        | none => [])
   else [])
  ++ (match b.server_side_encryption_customer_algorithm with
      | some v => [(xamzSseCustomerAlgorithm, v)]
      | none => [])
  ++ (match b.server_side_encryption_customer_key with
      | some v => [(xamzSseCustomerKey, v)]
      | none => [])
  ++ (match b.server_side_encryption_customer_key_md5 with
      | some v => [(xamzSseCustomerKeyMd5, v)]
      | none => [])

/-- `Backend::insert_sse_headers`. -/
def insert_sse_headers (b : Backend) (req : HttpRequestBuilder) (is_write : Bool) :
    HttpRequestBuilder :=
  { req with headers := req.headers ++ sse_headers_for b is_write }

/-- Modelled from the spec: `crate::ops::HeaderRange` (the type lives
outside this repository slice).  Offset-only means "from offset to end",
size-only means "first `size` bytes", both mean the closed byte range
`offset ..= offset+size-1`. -/
def header_range (offset size : Option Nat) : Str :=
  match offset, size with
  | some o, some s => ("bytes=").data ++ (Nat.repr o).data ++ '-' :: (Nat.repr (o + s - 1)).data
  | some o, none => ("bytes=").data ++ (Nat.repr o).data ++ ['-']
  | none, some s => ("bytes=0-").data ++ (Nat.repr (s - 1)).data
  | none, none => ("bytes=0-").data

/-- The URI `format!("{}/{}/{}", self.endpoint, self.bucket, path)`. -/
def object_uri (b : Backend) (path : Str) : Str :=
  b.endpoint ++ '/' :: b.bucket ++ '/' :: path

/-- The request built by `Backend::get_object`: GET, optional `Range`
header when offset or size is given, then read-mode SSE headers. -/
def get_object_request (b : Backend) (path : Str) (offset size : Option Nat) :
    HttpRequestBuilder :=
  let req : HttpRequestBuilder := ⟨("GET").data, object_uri b path, []⟩
  let req := if offset.isSome || size.isSome then
      { req with headers := req.headers ++ [(("range").data, header_range offset size)] }
    else req
  insert_sse_headers b req false

/-- The request built by `Backend::put_object`: PUT, explicit
`Content-Length`, then write-mode SSE headers.  The streamed body is
external and not modelled. -/
def put_object_request (b : Backend) (path : Str) (size : Nat) : HttpRequestBuilder :=
  let req : HttpRequestBuilder := ⟨("PUT").data, object_uri b path, []⟩
  let req := { req with headers := req.headers ++ [(("content-length").data, (Nat.repr size).data)] }
  insert_sse_headers b req true

/-- The request built by `Backend::head_object`: HEAD with read-mode SSE
headers. -/
def head_object_request (b : Backend) (path : Str) : HttpRequestBuilder :=
  insert_sse_headers b ⟨("HEAD").data, object_uri b path, []⟩ false

/-- The request built by `Backend::delete_object`: DELETE with an empty
body; the code attaches no headers at all (in particular it never calls
`insert_sse_headers`). -/
def delete_object_request (b : Backend) (path : Str) : HttpRequestBuilder :=
  ⟨("DELETE").data, object_uri b path, []⟩

/-! ## Response interpreter (`parse_error_response`) -/

/-- Modelled from the spec: `crate::error::Kind` (declared outside this
repository slice).  The spec's `ClassifiedError` kinds; the code spells
them `ObjectNotExist`, `ObjectPermissionDenied`, `Unexpected`,
`BackendConfigurationInvalid`. -/
inductive Kind
  | NotFound
  | PermissionDenied
  | BackendConfigurationInvalid
  | Unexpected
  deriving DecidableEq

/-- The classified error produced by `parse_error_response`:
`Error::Object {kind, op, path, source}` with the source message carrying
the accumulated body bytes, or `Error::Unexpected` when reading a body
chunk fails. -/
inductive S3Error
  | object (kind : Kind) (op : Str) (path : Str) (body : List Nat)
  | transport (msg : Str)
  deriving DecidableEq

/-- One chunk of a streamed response body: bytes, or a transport failure. -/
inductive BodyChunk
  | ok (bytes : List Nat)
  | error (msg : Str)
  deriving DecidableEq

/-- `usize` modulus: the wrapping behavior of `limit -= b.len()` in a
release build.  (A debug build would panic at the same point.) -/
def USIZE_MOD : Nat := 2 ^ 64

/-- The body-reading loop of `parse_error_response`: append
`b[..min(b.len(), limit)]`, then `limit -= b.len()` with `usize` release
(wrapping) semantics, stopping when `limit == 0` or chunks run out. -/
def read_error_body_go : List BodyChunk → List Nat → Nat → Except Str (List Nat)
  | [], bs, _ => .ok bs
  | .error e :: _, _, _ => .error e
  | .ok b :: rest, bs, limit =>
    let bs := bs ++ b.take (min b.length limit)
    let limit := (limit + USIZE_MOD - b.length) % USIZE_MOD
    if limit = 0 then .ok bs else read_error_body_go rest bs limit

/-- The body accumulation of `parse_error_response`, starting from an empty
buffer and `limit = 4 * 1024`. -/
def read_error_body (chunks : List BodyChunk) : Except Str (List Nat) :=
  read_error_body_go chunks [] (4 * 1024)

/-- `parse_error_response`: classify the status (404, 403, everything
else), read the capped body, and build the error. -/
def parse_error_response (status : Nat) (chunks : List BodyChunk) (op path : Str) :
    S3Error :=
  let kind : Kind :=
    match status with
    | 404 => .NotFound
    | 403 => .PermissionDenied
    | _ => .Unexpected
  match read_error_body chunks with
  | .error e => .transport e
  | .ok bs => .object kind op path bs

/-! ## Metadata and `stat` -/

/-- `crate::ObjectMode` (declared outside this repository slice).
Modelled from the spec: `mode ∈ {FILE, DIR}`. -/
inductive ObjectMode
  | FILE
  | DIR
  deriving DecidableEq

/-- Modelled from the spec: `crate::object::Metadata` (declared outside
this repository slice) — `path`, `content_length` defaulting to 0 until
set, optional `content_md5`, optional `last_modified`, `mode`, and a
`complete` flag.  `last_modified` keeps the raw RFC-2822 header value;
parsing it is delegated to the external `time` crate.  Each `set_*` call
in the code is modelled as a record update. -/
structure Metadata where
  path : Str
  content_length : Nat
  content_md5 : Option Str
  last_modified : Option Str
  mode : Option ObjectMode
  complete : Bool
  deriving DecidableEq

/-- `Metadata::default()`: everything unset. -/
def Metadata.init : Metadata := ⟨[], 0, none, none, none, false⟩

/-- Rust `u64::from_str`: an optional leading `'+'`, then one or more
decimal digits, value below `2 ^ 64`. -/
def u64_from_str (s : Str) : Option Nat :=
  let digits := if s.head? = some '+' then s.tail else s
  if digits ≠ [] ∧ digits.all (fun c => c.isDigit) then
    let n := digits.foldl (fun acc c => acc * 10 + (c.toNat - 48)) 0
    if n < 2 ^ 64 then some n else none
  else none

/-- The response to the HEAD request issued by `stat`: status, the three
headers the code reads, and the body chunks (consumed only on the error
path). -/
structure HeadResponse where
  status : Nat
  content_length_hdr : Option Str
  content_md5_hdr : Option Str
  last_modified_hdr : Option Str
  chunks : List BodyChunk
  deriving DecidableEq

/-- The first phase of `Accessor::stat` for `Backend`: translate the
argument path, and either answer immediately for the virtual root (no
network call) or name the key a HEAD request must be sent for.  `none`
models the `unreachable!` panic inside `get_rel_path`. -/
inductive StatAction
  | immediate (m : Metadata)
  | sendHead (key : Str)
  deriving DecidableEq

/-- `stat`, up to the point where a network request would be issued: the
root check `get_rel_path(p).is_empty()` happens before any HEAD request,
and builds `{path, content_length 0, DIR, complete}` directly. -/
def stat_request (b : Backend) (args_path : Str) : Option StatAction :=
  let p := get_abs_path b args_path
  match get_rel_path b p with
  | none => none
  | some r =>
    if r = [] then
      some (.immediate
        { path := args_path, content_length := 0, content_md5 := none,
          last_modified := none, mode := some .DIR, complete := true })
    else some (.sendHead p)

/-- The second phase of `stat`: interpret the HEAD response for absolute
key `p`.  Status 200 populates the metadata from the headers (an
unparseable `Content-Length` is the `expect` panic, modelled by `none`);
404 on a trailing-slash key is an implicit empty directory; anything else
goes to `parse_error_response` with op `"stat"`. -/
def stat_response (args_path p : Str) (resp : HeadResponse) :
    Option (Except S3Error Metadata) :=
  if resp.status = 200 then
    let m := { Metadata.init with path := args_path }
    let step :=
      match resp.content_length_hdr with
      | none => some m
      | some v =>
        match u64_from_str v with
        | none => none
        | some n => some { m with content_length := n }
    match step with
    | none => none
    | some m =>
      let m :=
        match resp.content_md5_hdr with
        | none => m
        | some v => { m with content_md5 := some v }
      let m :=
        match resp.last_modified_hdr with
        | none => m
        | some v => { m with last_modified := some v }
      let m :=
        if p.getLast? = some '/' then { m with mode := some ObjectMode.DIR }
        else { m with mode := some ObjectMode.FILE }
      some (.ok { m with complete := true })
  else if resp.status = 404 ∧ p.getLast? = some '/' then
    some (.ok
      { path := args_path, content_length := 0, content_md5 := none,
        last_modified := none, mode := some .DIR, complete := true })
  else
    some (.error (parse_error_response resp.status resp.chunks ("stat").data p))

/-! ## Concrete configurations used by witnesses and counterexamples -/

/-- A backend rooted at `/a/`, no encryption configured. -/
def backendRootA : Backend :=
  ⟨("bucket").data, ("http://example.test").data, ("/a/").data, none, none, none, none, none⟩

/-- A backend with the three SSE-C customer-key settings configured
(`AES256`, a base64 key, its base64 MD5). -/
def backendSSEC : Backend :=
  ⟨("bucket").data, ("http://example.test").data, ("/").data, none, none,
   some ("AES256").data, some ("S0VZMTIz").data, some ("TUQ1TUQ1").data⟩

/-- A backend rooted at `/`, no encryption configured. -/
def backendRootSlash : Backend :=
  ⟨("bucket").data, ("http://example.test").data, ("/").data, none, none, none, none, none⟩

/-! ## Support lemmas for the path model -/

theorem splitSlash_cons (c : Char) (cs : Str) :
    splitSlash (c :: cs) =
      if c = '/' then [] :: splitSlash cs
      else (splitSlash cs).modifyHead (fun s => c :: s) := rfl

theorem splitSlash_ne_nil (cs : Str) : splitSlash cs ≠ [] := by
  induction cs with
  | nil => simp [splitSlash]
  | cons c cs ih =>
    rw [splitSlash_cons]
    by_cases h : c = '/'
    · simp [h]
    · rw [if_neg h]
      cases hs : splitSlash cs with
      | nil => exact absurd hs ih
      | cons hd tl => simp

theorem not_slash_of_mem_splitSlash {cs : Str} {s : Str} (hmem : s ∈ splitSlash cs) :
    '/' ∉ s := by
  induction cs generalizing s with
  | nil =>
    simp [splitSlash] at hmem
    simp [hmem]
  | cons c cs ih =>
    rw [splitSlash_cons] at hmem
    by_cases h : c = '/'
    · rw [if_pos h] at hmem
      rcases List.mem_cons.mp hmem with h1 | h1
      · simp [h1]
      · exact ih h1
    · rw [if_neg h] at hmem
      cases hs : splitSlash cs with
      | nil => exact absurd hs (splitSlash_ne_nil cs)
      | cons hd tl =>
        rw [hs] at hmem
        simp only [List.modifyHead_cons] at hmem
        rcases List.mem_cons.mp hmem with h1 | h1
        · subst h1
          intro hcon
          rcases List.mem_cons.mp hcon with h2 | h2
          · exact h h2.symm
          · exact ih (hs ▸ List.mem_cons_self hd tl) h2
        · exact ih (hs ▸ List.mem_cons_of_mem hd h1)

theorem splitSlash_append_no_slash {s : Str} (hs : '/' ∉ s) (r : Str) :
    splitSlash (s ++ r) = (splitSlash r).modifyHead (fun t => s ++ t) := by
  induction s with
  | nil =>
    cases h : splitSlash r with
    | nil => simp [h]
    | cons hd tl => simp [h]
  | cons c s ih =>
    have hc : c ≠ '/' := fun h => hs (h ▸ List.mem_cons_self c s)
    have hs' : '/' ∉ s := fun h => hs (List.mem_cons_of_mem c h)
    rw [List.cons_append, splitSlash_cons, if_neg hc, ih hs']
    cases h : splitSlash r with
    | nil => simp
    | cons hd tl => simp

theorem joinSlash_cons_cons (s t : Str) (rest : List Str) :
    joinSlash (s :: t :: rest) = s ++ '/' :: joinSlash (t :: rest) := rfl

theorem joinSlash_ne_nil {s : Str} (hs : s ≠ []) (rest : List Str) :
    joinSlash (s :: rest) ≠ [] := by
  cases rest with
  | nil => exact hs
  | cons t r =>
    rw [joinSlash_cons_cons]
    simp

theorem splitSlash_joinSlash {segs : List Str}
    (hclean : ∀ s ∈ segs, '/' ∉ s) (hne : segs ≠ []) :
    splitSlash (joinSlash segs) = segs := by
  induction segs with
  | nil => exact absurd rfl hne
  | cons s rest ih =>
    cases rest with
    | nil =>
      have hs : '/' ∉ s := hclean s (List.mem_cons_self s [])
      have := splitSlash_append_no_slash hs []
      simpa [joinSlash, splitSlash] using this
    | cons t r =>
      have hs : '/' ∉ s := hclean s (List.mem_cons_self s _)
      have hrest : ∀ x ∈ t :: r, '/' ∉ x := fun x hx =>
        hclean x (List.mem_cons_of_mem s hx)
      rw [joinSlash_cons_cons, splitSlash_append_no_slash hs,
        splitSlash_cons, if_pos rfl, ih hrest (by simp)]
      simp

theorem getLast?_joinSlash {segs : List Str}
    (hgood : ∀ s ∈ segs, s ≠ [] ∧ '/' ∉ s) :
    (joinSlash segs).getLast? ≠ some '/' := by
  induction segs with
  | nil => simp [joinSlash]
  | cons s rest ih =>
    cases rest with
    | nil =>
      show s.getLast? ≠ some '/'
      intro hcon
      have hmem : '/' ∈ s := List.mem_of_mem_getLast? (hcon ▸ rfl)
      exact (hgood s (List.mem_cons_self s [])).2 hmem
    | cons t r =>
      have hrest : ∀ x ∈ t :: r, x ≠ [] ∧ '/' ∉ x := fun x hx =>
        hgood x (List.mem_cons_of_mem s hx)
      have hJ : joinSlash (t :: r) ≠ [] := joinSlash_ne_nil (hrest t (by simp)).1 r
      rw [joinSlash_cons_cons, List.getLast?_append]
      cases hj : joinSlash (t :: r) with
      | nil => exact absurd hj hJ
      | cons a l =>
        have := ih hrest
        rw [hj] at this
        simpa using this

theorem joinSlash_ne_single_slash {segs : List Str}
    (hgood : ∀ s ∈ segs, s ≠ [] ∧ '/' ∉ s) :
    joinSlash segs ≠ ['/'] := by
  cases segs with
  | nil => simp [joinSlash]
  | cons s rest =>
    cases rest with
    | nil =>
      show s ≠ ['/']
      intro h
      exact (hgood s (by simp)).2 (h ▸ List.mem_cons_self '/' [])
    | cons t r =>
      rw [joinSlash_cons_cons]
      intro h
      have hlen := congrArg List.length h
      have hs : s ≠ [] := (hgood s (by simp)).1
      have : 1 ≤ s.length := List.length_pos.mpr hs
      simp [List.length_append] at hlen
      omega

theorem joinSlash_concat_nil {segs : List Str} (hne : segs ≠ []) :
    joinSlash (segs ++ [[]]) = joinSlash segs ++ ['/'] := by
  induction segs with
  | nil => exact absurd rfl hne
  | cons s rest ih =>
    cases rest with
    | nil => rfl
    | cons t r =>
      rw [show joinSlash ((s :: t :: r) ++ [[]]) =
            s ++ '/' :: joinSlash ((t :: r) ++ [[]]) from rfl]
      rw [ih (by simp), joinSlash_cons_cons]
      simp

theorem normalize_path_eval (p : Str) :
    normalize_path p =
      (if p.getLast? = some '/' ∧
           joinSlash ((splitSlash p).filter (fun s => !s.isEmpty)) ≠ ['/']
       then joinSlash ((splitSlash p).filter (fun s => !s.isEmpty)) ++ ['/']
       else joinSlash ((splitSlash p).filter (fun s => !s.isEmpty))) := rfl

theorem finish_root_some (v : Str) :
    finish_root (some v) =
      (if (if (normalize_path v).head? = some '/' then normalize_path v
           else '/' :: normalize_path v).getLast? = some '/'
       then (if (normalize_path v).head? = some '/' then normalize_path v
             else '/' :: normalize_path v)
       else (if (normalize_path v).head? = some '/' then normalize_path v
             else '/' :: normalize_path v) ++ ['/']) := rfl

theorem segs_good (p : Str) :
    ∀ s ∈ (splitSlash p).filter (fun s => !s.isEmpty), s ≠ [] ∧ '/' ∉ s := by
  intro s hs
  rw [List.mem_filter] at hs
  refine ⟨?_, not_slash_of_mem_splitSlash hs.1⟩
  intro h
  subst h
  simp at hs

/-! ## Claim theorems -/

/-- Claim C9: `normalize_path` is idempotent — normalizing an
already-normalized path is the identity. -/
theorem c9_normalize_path_idempotent (p : Str) :
    normalize_path (normalize_path p) = normalize_path p := by
  rw [normalize_path_eval p]
  set segs := (splitSlash p).filter (fun s => !s.isEmpty) with hS
  have hgood : ∀ s ∈ segs, s ≠ [] ∧ '/' ∉ s := by
    rw [hS]; exact segs_good p
  have hclean : ∀ s ∈ segs, '/' ∉ s := fun s hs => (hgood s hs).2
  have hfilter : segs.filter (fun s => !s.isEmpty) = segs :=
    List.filter_eq_self.mpr (fun s hs => by simpa using (hgood s hs).1)
  by_cases h0 : segs = []
  · rw [h0]
    by_cases ht : p.getLast? = some '/'
    · rw [if_pos ⟨ht, by simp [joinSlash]⟩]
      decide
    · rw [if_neg (fun hq => ht hq.1)]
      decide
  · by_cases hc : p.getLast? = some '/' ∧ joinSlash segs ≠ ['/']
    · rw [if_pos hc]
      have hjoin : joinSlash segs ++ ['/'] = joinSlash (segs ++ [[]]) :=
        (joinSlash_concat_nil h0).symm
      rw [normalize_path_eval (joinSlash segs ++ ['/'])]
      have hsplit : splitSlash (joinSlash segs ++ ['/']) = segs ++ [[]] := by
        rw [hjoin]
        refine splitSlash_joinSlash (fun s hs => ?_) (by simp)
        rcases List.mem_append.mp hs with h | h
        · exact hclean s h
        · simp at h
          simp [h]
      rw [hsplit]
      have hfilter2 : (segs ++ [[]]).filter (fun s => !s.isEmpty) = segs := by
        rw [List.filter_append, hfilter]
        simp
      rw [hfilter2, List.getLast?_concat]
      rw [if_pos ⟨rfl, hc.2⟩]
    · rw [if_neg hc]
      rw [normalize_path_eval (joinSlash segs)]
      rw [splitSlash_joinSlash hclean h0, hfilter]
      have hlast : (joinSlash segs).getLast? ≠ some '/' := getLast?_joinSlash hgood
      rw [if_neg (fun hcontr => hlast hcontr.1)]

/-- Claim C1, counterexample: with no explicit region and the default
global endpoint, a probe answering 200 with `x-amz-bucket-region:
us-east-2` makes `detect_region` return the endpoint unchanged — not the
regional endpoint `https://s3.us-east-2.amazonaws.com` the claim
asserts. -/
theorem c1_claim_counterexample :
    detect_region none none ("test").data
        (fun _ => some ⟨200, some ("us-east-2").data⟩)
      = .ok ("https://s3.amazonaws.com").data ("us-east-2").data ∧
    detect_region none none ("test").data
        (fun _ => some ⟨200, some ("us-east-2").data⟩)
      ≠ .ok ("https://s3.us-east-2.amazonaws.com").data ("us-east-2").data := by
  decide

/-- Claim C1 (amended): with no explicit region and the default global
endpoint, a HEAD probe answering 200 with `x-amz-bucket-region: R` makes
`detect_region` return region `R` and the endpoint unchanged (the global
default); template substitution happens only on status 301. -/
theorem c1_detect_region_200_keeps_endpoint (bucket r : Str)
    (probe : Str → Option ProbeResponse)
    (h : probe (("https://s3.amazonaws.com").data ++ '/' :: bucket)
          = some ⟨200, some r⟩) :
    detect_region none none bucket probe
      = .ok ("https://s3.amazonaws.com").data r := by
  simp only [detect_region, Option.getD_none]
  rw [h]
  simp

/-- Witness for C1: the amended theorem applied at a concrete probe. -/
theorem c1_detect_region_200_keeps_endpoint_witness :
    detect_region none none ("test").data
        (fun _ => some ⟨200, some ("eu-west-1").data⟩)
      = .ok ("https://s3.amazonaws.com").data ("eu-west-1").data :=
  c1_detect_region_200_keeps_endpoint ("test").data ("eu-west-1").data _ rfl

/-- Claim C2, counterexample: for root `/a/`, `get_rel_path` on key `a/b`
returns `"b"`, not the `"/b"` the claim asserts (Rust `strip_prefix`
removes the whole root `"/a/"`, including its trailing slash). -/
theorem c2_claim_counterexample :
    get_rel_path backendRootA ("a/b").data = some ("b").data ∧
    get_rel_path backendRootA ("a/b").data ≠ some ("/b").data := by
  decide

/-- Claim C2 (amended): for a backend rooted at `/a/`, `get_abs_path` of
the virtual path `/b` is the key `a/b`, and `get_rel_path` of the key
`a/b` is `b` (no leading slash). -/
theorem c2_path_round_trip :
    get_abs_path backendRootA ("/b").data = ("a/b").data ∧
    get_rel_path backendRootA ("a/b").data = some ("b").data := by
  decide

/-- Claim C3, counterexample: with all three customer-key SSE-C settings
configured, the DELETE request built by `delete_object` carries no headers
at all — `delete_object` never calls `insert_sse_headers`. -/
theorem c3_claim_counterexample :
    backendSSEC.server_side_encryption_customer_algorithm.isSome = true ∧
    backendSSEC.server_side_encryption_customer_key.isSome = true ∧
    backendSSEC.server_side_encryption_customer_key_md5.isSome = true ∧
    (delete_object_request backendSSEC ("a/b").data).headers = [] := by
  decide

/-- Claim C3 (amended): when the three customer-key SSE-C settings are
configured, the GET (read), PUT (write) and HEAD (stat) requests all carry
the three `x-amz-server-side-encryption-customer-*` headers, while the
DELETE request carries no SSE headers (its header list is empty). -/
theorem c3_sse_customer_headers (b : Backend) (a k m5 : Str) (path : Str)
    (offset size : Option Nat) (sz : Nat)
    (ha : b.server_side_encryption_customer_algorithm = some a)
    (hk : b.server_side_encryption_customer_key = some k)
    (hm : b.server_side_encryption_customer_key_md5 = some m5) :
    ((xamzSseCustomerAlgorithm, a) ∈ (get_object_request b path offset size).headers ∧
     (xamzSseCustomerKey, k) ∈ (get_object_request b path offset size).headers ∧
     (xamzSseCustomerKeyMd5, m5) ∈ (get_object_request b path offset size).headers) ∧
    ((xamzSseCustomerAlgorithm, a) ∈ (put_object_request b path sz).headers ∧
     (xamzSseCustomerKey, k) ∈ (put_object_request b path sz).headers ∧
     (xamzSseCustomerKeyMd5, m5) ∈ (put_object_request b path sz).headers) ∧
    ((xamzSseCustomerAlgorithm, a) ∈ (head_object_request b path).headers ∧
     (xamzSseCustomerKey, k) ∈ (head_object_request b path).headers ∧
     (xamzSseCustomerKeyMd5, m5) ∈ (head_object_request b path).headers) ∧
    (delete_object_request b path).headers = [] := by
  simp [get_object_request, put_object_request, head_object_request,
        delete_object_request, insert_sse_headers, sse_headers_for, ha, hk, hm]

/-- Witness for C3: the amended theorem applied to the concrete SSE-C
backend. -/
theorem c3_sse_customer_headers_witness :
    ((xamzSseCustomerAlgorithm, ("AES256").data)
        ∈ (get_object_request backendSSEC ("x").data none none).headers ∧
     (xamzSseCustomerKey, ("S0VZMTIz").data)
        ∈ (get_object_request backendSSEC ("x").data none none).headers ∧
     (xamzSseCustomerKeyMd5, ("TUQ1TUQ1").data)
        ∈ (get_object_request backendSSEC ("x").data none none).headers) ∧
    ((xamzSseCustomerAlgorithm, ("AES256").data)
        ∈ (put_object_request backendSSEC ("x").data 3).headers ∧
     (xamzSseCustomerKey, ("S0VZMTIz").data)
        ∈ (put_object_request backendSSEC ("x").data 3).headers ∧
     (xamzSseCustomerKeyMd5, ("TUQ1TUQ1").data)
        ∈ (put_object_request backendSSEC ("x").data 3).headers) ∧
    ((xamzSseCustomerAlgorithm, ("AES256").data)
        ∈ (head_object_request backendSSEC ("x").data).headers ∧
     (xamzSseCustomerKey, ("S0VZMTIz").data)
        ∈ (head_object_request backendSSEC ("x").data).headers ∧
     (xamzSseCustomerKeyMd5, ("TUQ1TUQ1").data)
        ∈ (head_object_request backendSSEC ("x").data).headers) ∧
    (delete_object_request backendSSEC ("x").data).headers = [] :=
  c3_sse_customer_headers backendSSEC ("AES256").data ("S0VZMTIz").data
    ("TUQ1TUQ1").data ("x").data none none 3 rfl rfl rfl

theorem read_go_ok_cons (b : List Nat) (rest : List BodyChunk) (bs : List Nat)
    (limit : Nat) :
    read_error_body_go (.ok b :: rest) bs limit =
      (if (limit + USIZE_MOD - b.length) % USIZE_MOD = 0
       then .ok (bs ++ b.take (min b.length limit))
       else read_error_body_go rest (bs ++ b.take (min b.length limit))
              ((limit + USIZE_MOD - b.length) % USIZE_MOD)) := rfl

set_option maxHeartbeats 1000000 in
/-- Claim C4 fails on the code: when a body chunk is larger than the
remaining budget, `limit -= b.len()` underflows (debug builds panic;
release builds wrap `limit` to `2 ^ 64 - 1`), after which later chunks are
appended in full.  A body split as a 4097-byte chunk followed by a
4096-byte chunk accumulates 8192 bytes — more than the 4 KiB cap the
claim (and the code's own comment) promise. -/
theorem c4_error_body_cap_violated :
    read_error_body [.ok (List.replicate 4097 0), .ok (List.replicate 4096 0)]
      = .ok (List.replicate 8192 0) ∧
    ¬ (List.replicate 8192 (0 : Nat)).length ≤ 4 * 1024 := by
  constructor
  · rw [read_error_body, read_go_ok_cons]
    simp only [List.length_replicate, List.take_replicate, List.nil_append]
    norm_num [USIZE_MOD]
    rw [read_go_ok_cons]
    simp only [List.length_replicate, List.take_replicate,
      List.append_replicate_replicate]
    norm_num [USIZE_MOD, read_error_body_go]
  · simp only [List.length_replicate]
    norm_num

/-- Claim C5: for every status, the error built by `parse_error_response`
carries kind NotFound for 404, PermissionDenied for 403, and Unexpected
for everything else (given the body chunks read back successfully). -/
theorem c5_error_kind_classification (status : Nat) (op path : Str)
    (chunks : List BodyChunk) (bs : List Nat)
    (h : read_error_body chunks = .ok bs) :
    parse_error_response status chunks op path =
      .object (if status = 404 then Kind.NotFound
               else if status = 403 then Kind.PermissionDenied
               else Kind.Unexpected) op path bs := by
  simp only [parse_error_response, h]
  congr 1
  split
  · simp
  · simp
  · rename_i h4 h3
    rw [if_neg h4, if_neg h3]

/-- Witness for C5: the classification theorem applied at status 500 with
an empty body. -/
theorem c5_error_kind_classification_witness :
    parse_error_response 500 [] ("read").data ("p").data =
      .object (if 500 = 404 then Kind.NotFound
               else if 500 = 403 then Kind.PermissionDenied
               else Kind.Unexpected) ("read").data ("p").data [] :=
  c5_error_kind_classification 500 ("read").data ("p").data [] [] rfl

/-- Claim C6: when the HEAD response for a trailing-slash key has status
404, `stat` succeeds with `{mode: DIR, content_length: 0, complete}`
instead of a NotFound error. -/
theorem c6_stat_trailing_slash_404_dir (args_path p : Str) (resp : HeadResponse)
    (htrail : p.getLast? = some '/') (hstatus : resp.status = 404) :
    stat_response args_path p resp =
      some (.ok { path := args_path, content_length := 0, content_md5 := none,
                  last_modified := none, mode := some .DIR, complete := true }) := by
  simp [stat_response, hstatus, htrail]

/-- Witness for C6: a concrete trailing-slash key and 404 response. -/
theorem c6_stat_trailing_slash_404_dir_witness :
    stat_response ("/c/").data ("c/").data ⟨404, none, none, none, []⟩ =
      some (.ok { path := ("/c/").data, content_length := 0, content_md5 := none,
                  last_modified := none, mode := some .DIR, complete := true }) :=
  c6_stat_trailing_slash_404_dir ("/c/").data ("c/").data
    ⟨404, none, none, none, []⟩ (by decide) rfl

/-- Claim C7: when the root-relative form of the requested path is empty,
`stat` answers immediately with `{mode: DIR, content_length: 0, complete:
true}` and never reaches the HEAD request. -/
theorem c7_stat_root_immediate_dir (b : Backend) (args_path : Str)
    (h : get_rel_path b (get_abs_path b args_path) = some []) :
    stat_request b args_path =
      some (.immediate { path := args_path, content_length := 0, content_md5 := none,
                         last_modified := none, mode := some .DIR, complete := true }) := by
  simp [stat_request, h]

/-- Witness for C7: the virtual root of a backend rooted at `/`. -/
theorem c7_stat_root_immediate_dir_witness :
    stat_request backendRootSlash [] =
      some (.immediate { path := [], content_length := 0, content_md5 := none,
                         last_modified := none, mode := some .DIR, complete := true }) :=
  c7_stat_root_immediate_dir backendRootSlash [] (by decide)

/-- Claim C8: for every stored root value (each user-supplied root string
stores either `none` or `some` of itself), the root computed by
`Builder::finish` begins and ends with `'/'`, and an unset root is exactly
`"/"`. -/
theorem c8_finish_root_slashes :
    (∀ r : Option Str,
      (finish_root r).head? = some '/' ∧ (finish_root r).getLast? = some '/') ∧
    finish_root none = ['/'] := by
  refine ⟨fun r => ?_, rfl⟩
  cases r with
  | none => exact ⟨rfl, rfl⟩
  | some v =>
    rw [finish_root_some]
    obtain ⟨t, ht⟩ : ∃ t, (if (normalize_path v).head? = some '/' then normalize_path v
        else '/' :: normalize_path v) = '/' :: t := by
      by_cases h1 : (normalize_path v).head? = some '/'
      · rw [if_pos h1]
        cases hv : normalize_path v with
        | nil => rw [hv] at h1; simp at h1
        | cons a tl =>
          rw [hv] at h1
          simp only [List.head?_cons, Option.some.injEq] at h1
          exact ⟨tl, by rw [h1]⟩
      · rw [if_neg h1]
        exact ⟨normalize_path v, rfl⟩
    rw [ht]
    by_cases h2 : ('/' :: t).getLast? = some '/'
    · rw [if_pos h2]
      exact ⟨rfl, h2⟩
    · rw [if_neg h2]
      exact ⟨rfl, List.getLast?_concat _⟩

/-- Claim C10: every string-valued Builder setter maps the empty string to
`None` for its field, clearing any previously stored value. -/
theorem c10_empty_setter_stores_none (b : Builder) :
    (b.set_root []).root = none ∧
    (b.set_endpoint []).endpoint = none ∧
    (b.set_region []).region = none ∧
    (b.set_server_side_encryption []).server_side_encryption = none ∧
    (b.set_server_side_encryption_aws_kms_key_id
        []).server_side_encryption_aws_kms_key_id = none ∧
    (b.set_server_side_encryption_customer_algorithm
        []).server_side_encryption_customer_algorithm = none ∧
    (b.set_server_side_encryption_customer_key
        []).server_side_encryption_customer_key = none ∧
    (b.set_server_side_encryption_customer_key_md5
        []).server_side_encryption_customer_key_md5 = none :=
  ⟨rfl, rfl, rfl, rfl, rfl, rfl, rfl, rfl⟩

end OpendalS3
